import Mathlib

/-!
Verification of the R4DCB08 temperature-collector client
(`r4dcb08_cli.py`, `modbus_py.py`).

The Python source works with `int` register values and `float`
temperatures.  Here register values are `ℕ` (the transport only ever
hands back values in `[0, 65535]`), Python `int`s that may be negative
are `ℤ`, and `float` temperatures are modelled as exact rationals `ℚ`
(every value the codec manipulates is an integer number of tenths, so
the rational model agrees with IEEE doubles on the whole range the
device uses).  `int(x)` — Python's truncation toward zero — is
modelled by `⌈x⌉` for negative `x` and `⌊x⌋` otherwise.

The pymodbus transport is modelled as a pure function from a Modbus
request to a response, and every client operation returns, along with
its `Except` result, the list of requests it issued, so "exactly one
transaction" and "zero transport calls" are provable statements.
-/

namespace R4DCB08

/-- `R4DCB08Client.decode_temperature` (identical to the free function
`decode_temperature` in `modbus_py.py`): `0x8000` is the
sensor-disconnected sentinel; otherwise the register is read as a
two's-complement 16-bit integer and divided by 10. -/
def decode_temperature (raw_value : ℕ) : Option ℚ :=
  if raw_value = 0x8000 then
    none
  else
    let signed_value : ℤ := if raw_value > 32767 then (raw_value : ℤ) - 65536 else (raw_value : ℤ)
    some ((signed_value : ℚ) / 10)

/-- Python `int(x)`: truncation toward zero. -/
def pyInt (x : ℚ) : ℤ :=
  if x < 0 then ⌈x⌉ else ⌊x⌋

/-- `R4DCB08Client.encode_temperature`: multiply by 10, truncate to an
integer, and add 65536 to negative results (two's-complement encode). -/
def encode_temperature (temperature : ℚ) : ℤ :=
  let raw_value := pyInt (temperature * 10)
  if raw_value < 0 then raw_value + 65536 else raw_value

/-- A Modbus request as issued through the pymodbus client:
`read_holding_registers(address, count, device_id)` or
`write_register(address, value, device_id)`. -/
inductive MReq where
  | readHolding (address : ℤ) (count : ℕ) (deviceId : ℤ)
  | writeRegister (address : ℤ) (value : ℤ) (deviceId : ℤ)
  deriving DecidableEq

/-- A pymodbus response: the `isError()` flag, the `registers` payload,
and the diagnostic text produced when the response is formatted into an
error message. -/
structure MResponse where
  isError : Bool
  registers : List ℕ
  text : String
  deriving DecidableEq

/-- A connected pymodbus serial client, modelled as a pure function
from request to response. -/
def Transport : Type := MReq → MResponse

/-- The exceptions surfaced by the client operations: `ValueError`
(argument validation) and the generic wrapped `Exception`. -/
inductive PyErr where
  | valueError (msg : String)
  | exception (msg : String)
  deriving DecidableEq

/-- `R4DCB08Client.read_all_temperatures`: one
`read_holding_registers(0, 8)` transaction; on a transport error the
wrapped exception carries the Modbus diagnostic; on success all 8
registers are decoded independently.  `self.client` is `none` while
disconnected, in which case the attribute access on `None` raises and
is wrapped by the same handler.  The second component is the list of
transport calls issued. -/
def read_all_temperatures (address : ℤ) (client : Option Transport) :
    Except PyErr (List (Option ℚ)) × List MReq :=
  match client with
  | none =>
    (.error (.exception "Failed to read temperatures: 'NoneType' object has no attribute 'read_holding_registers'"), [])
  | some transport =>
    let req : MReq := .readHolding 0 8 address
    let result := transport req
    if result.isError then
      (.error (.exception ("Failed to read temperatures: Modbus error: " ++ result.text)), [req])
    else
      (.ok (result.registers.map decode_temperature), [req])

/-- `R4DCB08Client.read_single_temperature`: channel validation, then
one `read_holding_registers(channel, 1)` transaction whose first
register is decoded. -/
def read_single_temperature (address : ℤ) (channel : ℤ) (client : Option Transport) :
    Except PyErr (Option ℚ) × List MReq :=
  if ¬(0 ≤ channel ∧ channel ≤ 7) then
    (.error (.valueError "Channel must be 0-7"), [])
  else
    match client with
    | none =>
      (.error (.exception ("Failed to read temperature from channel " ++ toString channel ++ ": 'NoneType' object has no attribute 'read_holding_registers'")), [])
    | some transport =>
      let req : MReq := .readHolding channel 1 address
      let result := transport req
      if result.isError then
        (.error (.exception ("Failed to read temperature from channel " ++ toString channel ++ ": Modbus error: " ++ result.text)), [req])
      else
        match result.registers with
        | [] =>
          (.error (.exception ("Failed to read temperature from channel " ++ toString channel ++ ": list index out of range")), [req])
        | r :: _ => (.ok (decode_temperature r), [req])

/-- `R4DCB08Client.set_temperature_correction`: channel and range
validation, then one `write_register(0x0008 + channel, encoded)`
transaction. -/
def set_temperature_correction (address : ℤ) (channel : ℤ) (correction : ℚ)
    (client : Option Transport) : Except PyErr Unit × List MReq :=
  if ¬(0 ≤ channel ∧ channel ≤ 7) then
    (.error (.valueError "Channel must be 0-7"), [])
  else if ¬(-327.6 ≤ correction ∧ correction ≤ 327.6) then
    (.error (.valueError "Correction must be between -327.6 and +327.6 °C"), [])
  else
    match client with
    | none =>
      (.error (.exception ("Failed to set correction for channel " ++ toString channel ++ ": 'NoneType' object has no attribute 'write_register'")), [])
    | some transport =>
      let raw_correction := encode_temperature correction
      let correction_register : ℤ := 0x0008 + channel
      let req : MReq := .writeRegister correction_register raw_correction address
      let result := transport req
      if result.isError then
        (.error (.exception ("Failed to set correction for channel " ++ toString channel ++ ": Modbus error: " ++ result.text)), [req])
      else
        (.ok (), [req])

/-- `R4DCB08Client.read_temperature_corrections`: one
`read_holding_registers(0x0008, 8)` transaction, each register decoded
independently. -/
def read_temperature_corrections (address : ℤ) (client : Option Transport) :
    Except PyErr (List (Option ℚ)) × List MReq :=
  match client with
  | none =>
    (.error (.exception "Failed to read temperature corrections: 'NoneType' object has no attribute 'read_holding_registers'"), [])
  | some transport =>
    let req : MReq := .readHolding 0x0008 8 address
    let result := transport req
    if result.isError then
      (.error (.exception ("Failed to read temperature corrections: Modbus error: " ++ result.text)), [req])
    else
      (.ok (result.registers.map decode_temperature), [req])

end R4DCB08

open R4DCB08

/-- Evaluation of `decode_temperature` above the sign boundary. -/
lemma decode_temperature_high (n : ℕ) (h : 32768 < n) :
    decode_temperature n = some (((n : ℚ) - 65536) / 10) := by
  unfold decode_temperature
  rw [if_neg (by omega), if_pos (by omega)]
  push_cast
  ring_nf

/-- Evaluation of `decode_temperature` at or below the sign boundary. -/
lemma decode_temperature_low (n : ℕ) (h : n ≤ 32767) :
    decode_temperature n = some ((n : ℚ) / 10) := by
  unfold decode_temperature
  rw [if_neg (by omega), if_neg (by omega)]
  push_cast
  ring_nf

/-- `pyInt` on a rational that is an integer is that integer. -/
lemma pyInt_intCast (t : ℤ) : pyInt (t : ℚ) = t := by
  unfold pyInt
  split <;> simp

/-- Division by the fixed scale 10 is injective on `ℚ`. -/
lemma div_ten_inj (x y : ℚ) (h : x / 10 = y / 10) : x = y := by
  have h10 := congrArg (fun q : ℚ => q * 10) h
  simpa [div_mul_cancel₀] using h10

/-- C1: for every raw register value in `[0, 65535]`,
`decode_temperature` returns `none` exactly on the sentinel `0x8000 =
32768`; every other raw value decodes to `(raw - 65536)/10` when `raw >
32767` and to `raw/10` otherwise, so in particular `decode 32767 =
3276.7`, `decode 32768 = none`, and `decode 65535 = -0.1`. -/
theorem decode_sentinel_and_twos_complement (raw : ℕ) (hraw : raw ≤ 65535) :
    (decode_temperature raw = none ↔ raw = 32768) ∧
    (raw ≠ 32768 →
      decode_temperature raw =
        some (if raw > 32767 then ((raw : ℚ) - 65536) / 10 else (raw : ℚ) / 10)) ∧
    decode_temperature 32767 = some (32767 / 10) ∧
    decode_temperature 32768 = none ∧
    decode_temperature 65535 = some (-1 / 10) := by
  refine ⟨?_, ?_, by norm_num [decode_temperature], by norm_num [decode_temperature],
    by norm_num [decode_temperature]⟩
  · unfold decode_temperature
    constructor
    · intro h
      by_contra hne
      simp only [show (0x8000 : ℕ) = 32768 from rfl, hne, if_false] at h
      exact Option.noConfusion h
    · intro h
      simp [h]
  · intro hne
    unfold decode_temperature
    simp only [show (0x8000 : ℕ) = 32768 from rfl, hne, if_false]
    by_cases hgt : raw > 32767
    · simp only [hgt, if_true]
      push_cast
      ring_nf
    · simp only [hgt, if_false]
      push_cast
      ring_nf

/-- Witness for C1 at `raw = 65535`. -/
theorem decode_sentinel_and_twos_complement_witness :
    (decode_temperature 65535 = none ↔ (65535 : ℕ) = 32768) ∧
    ((65535 : ℕ) ≠ 32768 →
      decode_temperature 65535 =
        some (if (65535 : ℕ) > 32767 then ((65535 : ℚ) - 65536) / 10 else (65535 : ℚ) / 10)) ∧
    decode_temperature 32767 = some (32767 / 10) ∧
    decode_temperature 32768 = none ∧
    decode_temperature 65535 = some (-1 / 10) :=
  decode_sentinel_and_twos_complement 65535 (by decide)

/-- C2: for every integer `t` with `-3276 ≤ t ≤ 3276`, encoding the
value `t/10` to a raw register and decoding it back restores `t/10`
exactly. -/
theorem decode_encode_roundtrip (t : ℤ) (h1 : -3276 ≤ t) (h2 : t ≤ 3276) :
    decode_temperature (encode_temperature ((t : ℚ) / 10)).toNat = some ((t : ℚ) / 10) := by
  have hx : ((t : ℚ) / 10) * 10 = (t : ℚ) := by
    field_simp
  have hpy : pyInt (((t : ℚ) / 10) * 10) = t := by
    rw [hx, pyInt_intCast]
  unfold encode_temperature
  rw [hpy]
  by_cases ht : t < 0
  · rw [if_pos ht]
    have hnn : (0 : ℤ) ≤ t + 65536 := by omega
    have htn : ((t + 65536).toNat : ℤ) = t + 65536 := Int.toNat_of_nonneg hnn
    have hgt : 32768 < (t + 65536).toNat := by omega
    rw [decode_temperature_high _ hgt]
    have hc : (((t + 65536).toNat : ℕ) : ℚ) = (t : ℚ) + 65536 := by
      exact_mod_cast congrArg (fun z : ℤ => (z : ℚ)) htn
    rw [hc]
    ring_nf
  · rw [if_neg ht]
    have htn : ((t.toNat : ℕ) : ℤ) = t := Int.toNat_of_nonneg (by omega)
    have hle : t.toNat ≤ 32767 := by omega
    rw [decode_temperature_low _ hle]
    have hc : ((t.toNat : ℕ) : ℚ) = (t : ℚ) := by
      exact_mod_cast congrArg (fun z : ℤ => (z : ℚ)) htn
    rw [hc]

/-- Witness for C2 at `t = -3276`. -/
theorem decode_encode_roundtrip_witness :
    decode_temperature (encode_temperature (((-3276 : ℤ) : ℚ) / 10)).toNat =
      some (((-3276 : ℤ) : ℚ) / 10) :=
  decode_encode_roundtrip (-3276) (by decide) (by decide)

/-- C8: `encode_temperature` truncates `value * 10` toward zero
(`pyInt` never increases the magnitude, and loses strictly less than
one unit of it) and adds 65536 to negative truncations; in particular
`encode 327.6 = 3276` and `encode (-327.6) = 62260`. -/
theorem encode_truncates_toward_zero (v : ℚ) :
    encode_temperature v =
      (if pyInt (v * 10) < 0 then pyInt (v * 10) + 65536 else pyInt (v * 10)) ∧
    |(pyInt (v * 10) : ℚ)| ≤ |v * 10| ∧
    |v * 10| < |(pyInt (v * 10) : ℚ)| + 1 ∧
    encode_temperature (327.6 : ℚ) = 3276 ∧
    encode_temperature (-327.6 : ℚ) = 62260 := by
  refine ⟨rfl, ?_, ?_, ?_, ?_⟩
  · unfold pyInt
    split
    · next hneg =>
      have h0 : ⌈v * 10⌉ ≤ 0 := Int.ceil_le.mpr (by exact_mod_cast hneg.le)
      have hc : ((⌈v * 10⌉ : ℤ) : ℚ) ≤ 0 := by exact_mod_cast h0
      rw [abs_of_nonpos hc, abs_of_nonpos hneg.le]
      have := Int.le_ceil (v * 10)
      linarith
    · next hpos =>
      push_neg at hpos
      have h0 : (0 : ℤ) ≤ ⌊v * 10⌋ := Int.floor_nonneg.mpr hpos
      have hc : (0 : ℚ) ≤ ((⌊v * 10⌋ : ℤ) : ℚ) := by exact_mod_cast h0
      rw [abs_of_nonneg hc, abs_of_nonneg hpos]
      exact Int.floor_le (v * 10)
  · unfold pyInt
    split
    · next hneg =>
      have h0 : ⌈v * 10⌉ ≤ 0 := Int.ceil_le.mpr (by exact_mod_cast hneg.le)
      have hc : ((⌈v * 10⌉ : ℤ) : ℚ) ≤ 0 := by exact_mod_cast h0
      rw [abs_of_nonpos hneg.le, abs_of_nonpos hc]
      have := Int.ceil_lt_add_one (v * 10)
      linarith
    · next hpos =>
      push_neg at hpos
      have h0 : (0 : ℤ) ≤ ⌊v * 10⌋ := Int.floor_nonneg.mpr hpos
      have hc : (0 : ℚ) ≤ ((⌊v * 10⌋ : ℤ) : ℚ) := by exact_mod_cast h0
      rw [abs_of_nonneg hpos, abs_of_nonneg hc]
      exact Int.lt_floor_add_one (v * 10)
  · have h1 : (327.6 : ℚ) * 10 = ((3276 : ℤ) : ℚ) := by norm_num
    unfold encode_temperature
    rw [h1, pyInt_intCast]
    norm_num
  · have h1 : (-327.6 : ℚ) * 10 = ((-3276 : ℤ) : ℚ) := by norm_num
    unfold encode_temperature
    rw [h1, pyInt_intCast]
    norm_num

/-- C9: every value in `[-327.6, 327.6]` encodes to a raw register in
`[0, 65535]` that is never the sentinel `0x8000 = 32768`. -/
theorem encode_in_range_avoids_sentinel (v : ℚ) (h1 : -327.6 ≤ v) (h2 : v ≤ 327.6) :
    0 ≤ encode_temperature v ∧ encode_temperature v ≤ 65535 ∧
    encode_temperature v ≠ 32768 := by
  have hx1 : (-3276 : ℚ) ≤ v * 10 := by nlinarith
  have hx2 : v * 10 ≤ (3276 : ℚ) := by nlinarith
  have ht1 : -3276 ≤ pyInt (v * 10) ∧ pyInt (v * 10) ≤ 3276 := by
    unfold pyInt
    split
    · constructor
      · have := Int.le_ceil (v * 10)
        have : ((-3276 : ℤ) : ℚ) ≤ (⌈v * 10⌉ : ℚ) := by
          push_cast
          linarith [Int.le_ceil (v * 10)]
        exact_mod_cast this
      · exact Int.ceil_le.mpr (by exact_mod_cast hx2)
    · constructor
      · exact Int.le_floor.mpr (by exact_mod_cast hx1)
      · have : ((⌊v * 10⌋ : ℤ) : ℚ) ≤ ((3276 : ℤ) : ℚ) := by
          push_cast
          linarith [Int.floor_le (v * 10)]
        exact_mod_cast this
  obtain ⟨ht1, ht2⟩ := ht1
  simp only [encode_temperature]
  by_cases hneg : pyInt (v * 10) < 0
  · rw [if_pos hneg]
    omega
  · rw [if_neg hneg]
    omega

/-- Witness for C9 at `v = -327.6`. -/
theorem encode_in_range_avoids_sentinel_witness :
    0 ≤ encode_temperature (-327.6 : ℚ) ∧ encode_temperature (-327.6 : ℚ) ≤ 65535 ∧
    encode_temperature (-327.6 : ℚ) ≠ 32768 :=
  encode_in_range_avoids_sentinel (-327.6) (by norm_num) (by norm_num)

/-- C10: `decode_temperature` is injective on the non-sentinel raw
values in `[0, 65535]`: distinct registers decode to distinct values. -/
theorem decode_injective_on_nonsentinel (a b : ℕ)
    (ha : a ≤ 65535) (hb : b ≤ 65535) (hsa : a ≠ 32768) (hsb : b ≠ 32768)
    (h : decode_temperature a = decode_temperature b) : a = b := by
  by_cases hag : a ≤ 32767 <;> by_cases hbg : b ≤ 32767
  · rw [decode_temperature_low a hag, decode_temperature_low b hbg] at h
    have h' : (a : ℚ) = (b : ℚ) := div_ten_inj _ _ (Option.some_injective _ h)
    exact_mod_cast h'
  · rw [decode_temperature_low a hag, decode_temperature_high b (by omega)] at h
    have h' : (a : ℚ) = (b : ℚ) - 65536 := div_ten_inj _ _ (Option.some_injective _ h)
    have h'' : (a : ℤ) = (b : ℤ) - 65536 := by exact_mod_cast h'
    omega
  · rw [decode_temperature_high a (by omega), decode_temperature_low b hbg] at h
    have h' : (a : ℚ) - 65536 = (b : ℚ) := div_ten_inj _ _ (Option.some_injective _ h)
    have h'' : (a : ℤ) - 65536 = (b : ℤ) := by exact_mod_cast h'
    omega
  · rw [decode_temperature_high a (by omega), decode_temperature_high b (by omega)] at h
    have h' : (a : ℚ) - 65536 = (b : ℚ) - 65536 := div_ten_inj _ _ (Option.some_injective _ h)
    have h'' : (a : ℤ) = (b : ℤ) := by
      have hq : (a : ℚ) = (b : ℚ) := by linarith
      exact_mod_cast hq
    exact_mod_cast h''

/-- Witness for C10 at `a = 250`, `b = 250`. -/
theorem decode_injective_on_nonsentinel_witness : (250 : ℕ) = 250 :=
  decode_injective_on_nonsentinel 250 250 (by decide) (by decide) (by decide) (by decide) rfl

/-- C3: on a connected client, `read_all_temperatures` issues exactly
one read of 8 holding registers at address 0 addressed to the device
(also when the transport reports an error, in which case no partial
results are returned), and on success decodes all 8 registers
independently in channel order; transport registers
`[250, 32768, 65486, 0, 0, 0, 0, 0]` yield
`[25.0, None, -5.0, 0.0, 0.0, 0.0, 0.0, 0.0]`. -/
theorem read_all_one_transaction_decodes_in_order (address : ℤ) (transport : Transport)
    (hok : (transport (MReq.readHolding 0 8 address)).isError = false) :
    (∀ t : Transport, (read_all_temperatures address (some t)).2 =
      [MReq.readHolding 0 8 address]) ∧
    (∀ t : Transport, (t (MReq.readHolding 0 8 address)).isError = true →
      (read_all_temperatures address (some t)).1 =
        Except.error (PyErr.exception ("Failed to read temperatures: Modbus error: " ++
          (t (MReq.readHolding 0 8 address)).text))) ∧
    read_all_temperatures address (some transport) =
      (Except.ok ((transport (MReq.readHolding 0 8 address)).registers.map decode_temperature),
        [MReq.readHolding 0 8 address]) ∧
    read_all_temperatures 1 (some fun _ => MResponse.mk false [250, 32768, 65486, 0, 0, 0, 0, 0] "") =
      (Except.ok [some 25, none, some (-5), some 0, some 0, some 0, some 0, some 0],
        [MReq.readHolding 0 8 1]) := by
  refine ⟨?_, ?_, ?_, ?_⟩
  · intro t
    unfold read_all_temperatures
    by_cases h : (t (MReq.readHolding 0 8 address)).isError <;> simp [h]
  · intro t h
    unfold read_all_temperatures
    simp [h]
  · unfold read_all_temperatures
    simp [hok]
  · unfold read_all_temperatures
    norm_num [decode_temperature]

/-- Witness for C3: a transport answering
`[250, 32768, 65486, 0, 0, 0, 0, 0]` with no error flag. -/
theorem read_all_one_transaction_decodes_in_order_witness :
    read_all_temperatures 1 (some fun _ => MResponse.mk false [250, 32768, 65486, 0, 0, 0, 0, 0] "") =
      (Except.ok [some 25, none, some (-5), some 0, some 0, some 0, some 0, some 0],
        [MReq.readHolding 0 8 1]) :=
  (read_all_one_transaction_decodes_in_order 1
    (fun _ => MResponse.mk false [250, 32768, 65486, 0, 0, 0, 0, 0] "") rfl).2.2.2

/-- C4: on a connected client, for every channel in `[0, 7]` and value
in `[-327.6, 327.6]`, `set_temperature_correction` issues exactly one
write-single-register transaction carrying the encoded value at
register `0x0008 + channel`, succeeding when the transport
acknowledges; `set_temperature_correction 3 1.5` writes raw 15 to
register `0x000B = 11`. -/
theorem set_correction_encodes_and_writes (address channel : ℤ) (v : ℚ) (transport : Transport)
    (hc1 : 0 ≤ channel) (hc2 : channel ≤ 7) (hv1 : -327.6 ≤ v) (hv2 : v ≤ 327.6)
    (hok : (transport (MReq.writeRegister (8 + channel) (encode_temperature v) address)).isError = false) :
    set_temperature_correction address channel v (some transport) =
      (Except.ok (), [MReq.writeRegister (8 + channel) (encode_temperature v) address]) ∧
    (∀ t : Transport, (set_temperature_correction address channel v (some t)).2 =
      [MReq.writeRegister (8 + channel) (encode_temperature v) address]) ∧
    encode_temperature (1.5 : ℚ) = 15 ∧
    set_temperature_correction 1 3 (1.5 : ℚ) (some fun _ => MResponse.mk false [] "") =
      (Except.ok (), [MReq.writeRegister 11 15 1]) := by
  have henc : encode_temperature (1.5 : ℚ) = 15 := by
    have h1 : (1.5 : ℚ) * 10 = ((15 : ℤ) : ℚ) := by norm_num
    unfold encode_temperature
    rw [h1, pyInt_intCast]
    norm_num
  refine ⟨?_, ?_, henc, ?_⟩
  · unfold set_temperature_correction
    rw [if_neg (not_not_intro ⟨hc1, hc2⟩), if_neg (not_not_intro ⟨hv1, hv2⟩)]
    simp [hok]
  · intro t
    unfold set_temperature_correction
    rw [if_neg (not_not_intro ⟨hc1, hc2⟩), if_neg (not_not_intro ⟨hv1, hv2⟩)]
    by_cases h : (t (MReq.writeRegister (8 + channel) (encode_temperature v) address)).isError <;>
      simp [h]
  · unfold set_temperature_correction
    rw [if_neg (by norm_num), if_neg (by norm_num)]
    simp [henc]

/-- Witness for C4: `set_temperature_correction 3 1.5` against an
acknowledging transport. -/
theorem set_correction_encodes_and_writes_witness :
    set_temperature_correction 1 3 (1.5 : ℚ) (some fun _ => MResponse.mk false [] "") =
      (Except.ok (), [MReq.writeRegister 11 15 1]) :=
  (set_correction_encodes_and_writes 1 3 (1.5 : ℚ) (fun _ => MResponse.mk false [] "")
    (by norm_num) (by norm_num) (by norm_num) (by norm_num) rfl).2.2.2

/-- C5: `read_single_temperature` rejects every channel outside
`[0, 7]` (in particular 8 and -1) with the `ValueError` for invalid
arguments and zero transport calls; for a channel in `[0, 7]` it
issues exactly one read of 1 holding register at address `channel`
and returns its decoded value. -/
theorem read_single_validates_and_reads (address channel : ℤ) (client : Option Transport)
    (transport : Transport) (r : ℕ) (rest : List ℕ) (txt : String) :
    (channel < 0 ∨ 7 < channel →
      read_single_temperature address channel client =
        (Except.error (PyErr.valueError "Channel must be 0-7"), [])) ∧
    read_single_temperature address 8 client =
      (Except.error (PyErr.valueError "Channel must be 0-7"), []) ∧
    read_single_temperature address (-1) client =
      (Except.error (PyErr.valueError "Channel must be 0-7"), []) ∧
    (0 ≤ channel → channel ≤ 7 →
      (∀ t : Transport, (read_single_temperature address channel (some t)).2 =
        [MReq.readHolding channel 1 address]) ∧
      (transport (MReq.readHolding channel 1 address) = MResponse.mk false (r :: rest) txt →
        read_single_temperature address channel (some transport) =
          (Except.ok (decode_temperature r), [MReq.readHolding channel 1 address]))) := by
  refine ⟨?_, ?_, ?_, ?_⟩
  · intro hbad
    unfold read_single_temperature
    rw [if_pos (by omega)]
  · unfold read_single_temperature
    rw [if_pos (by omega)]
  · unfold read_single_temperature
    rw [if_pos (by omega)]
  · intro h1 h2
    constructor
    · intro t
      unfold read_single_temperature
      rw [if_neg (not_not_intro ⟨h1, h2⟩)]
      by_cases herr : (t (MReq.readHolding channel 1 address)).isError
      · simp [herr]
      · simp only [Bool.not_eq_true] at herr
        rcases hr : (t (MReq.readHolding channel 1 address)).registers with _ | ⟨a, as⟩ <;>
          simp [herr, hr]
    · intro hresp
      unfold read_single_temperature
      rw [if_neg (not_not_intro ⟨h1, h2⟩)]
      simp [hresp]

/-- Witness for C5: channel 8 is rejected and channel 0 reads register
0 on a transport answering `[250]`. -/
theorem read_single_validates_and_reads_witness :
    read_single_temperature 1 8 none =
      (Except.error (PyErr.valueError "Channel must be 0-7"), []) ∧
    read_single_temperature 1 0 (some fun _ => MResponse.mk false [250] "") =
      (Except.ok (decode_temperature 250), [MReq.readHolding 0 1 1]) :=
  ⟨(read_single_validates_and_reads 1 8 none (fun _ => MResponse.mk false [250] "") 250 [] "").2.1,
    ((read_single_validates_and_reads 1 0 (some fun _ => MResponse.mk false [250] "")
      (fun _ => MResponse.mk false [250] "") 250 [] "").2.2.2 (by norm_num) (by norm_num)).2 rfl⟩

/-- C6: for a valid channel, every correction value outside
`[-327.6, 327.6]` is rejected — for any connection state, so before
any transport I/O — with the `ValueError` whose message states the
exact allowed range, and zero transport calls. -/
theorem set_correction_rejects_out_of_range (address channel : ℤ) (v : ℚ)
    (client : Option Transport) (hc1 : 0 ≤ channel) (hc2 : channel ≤ 7)
    (hbad : v < -327.6 ∨ 327.6 < v) :
    set_temperature_correction address channel v client =
      (Except.error (PyErr.valueError "Correction must be between -327.6 and +327.6 °C"), []) := by
  unfold set_temperature_correction
  rw [if_neg (not_not_intro ⟨hc1, hc2⟩), if_pos]
  rintro ⟨ha, hb⟩
  rcases hbad with h | h <;> linarith

/-- Witness for C6: `set_temperature_correction 0 327.7` on a
disconnected client. -/
theorem set_correction_rejects_out_of_range_witness :
    set_temperature_correction 1 0 (327.7 : ℚ) none =
      (Except.error (PyErr.valueError "Correction must be between -327.6 and +327.6 °C"), []) :=
  set_correction_rejects_out_of_range 1 0 (327.7 : ℚ) none (by norm_num) (by norm_num)
    (Or.inr (by norm_num))

/-- C7 counterexample: while disconnected, the operations do not fail
with a first-class NotConnected error: the surfaced failure is the
same generic wrapped-`Exception` kind (`PyErr.exception`) that a
transport error produces, merely carrying the `AttributeError` text
from the absent `self.client`. -/
theorem disconnected_failure_same_kind_as_transport_failure :
    read_all_temperatures 1 none =
      (Except.error (PyErr.exception "Failed to read temperatures: 'NoneType' object has no attribute 'read_holding_registers'"), []) ∧
    read_all_temperatures 1 (some fun _ => MResponse.mk true [] "device timed out") =
      (Except.error (PyErr.exception "Failed to read temperatures: Modbus error: device timed out"),
        [MReq.readHolding 0 8 1]) := by
  constructor
  · rfl
  · unfold read_all_temperatures
    simp

/-- C7 (amended): each of the four operations invoked while the client
is disconnected (`self.client = None`) fails — with the generic
wrapped exception carrying the `AttributeError` diagnostic from the
absent transport handle, the code's realization of the not-connected
failure — and issues zero transport calls. -/
theorem disconnected_operations_fail_without_transport (address channel : ℤ) (v : ℚ)
    (hc1 : 0 ≤ channel) (hc2 : channel ≤ 7) (hv1 : -327.6 ≤ v) (hv2 : v ≤ 327.6) :
    read_all_temperatures address none =
      (Except.error (PyErr.exception "Failed to read temperatures: 'NoneType' object has no attribute 'read_holding_registers'"), []) ∧
    read_single_temperature address channel none =
      (Except.error (PyErr.exception ("Failed to read temperature from channel " ++ toString channel ++ ": 'NoneType' object has no attribute 'read_holding_registers'")), []) ∧
    read_temperature_corrections address none =
      (Except.error (PyErr.exception "Failed to read temperature corrections: 'NoneType' object has no attribute 'read_holding_registers'"), []) ∧
    set_temperature_correction address channel v none =
      (Except.error (PyErr.exception ("Failed to set correction for channel " ++ toString channel ++ ": 'NoneType' object has no attribute 'write_register'")), []) := by
  refine ⟨rfl, ?_, rfl, ?_⟩
  · unfold read_single_temperature
    rw [if_neg (not_not_intro ⟨hc1, hc2⟩)]
  · unfold set_temperature_correction
    rw [if_neg (not_not_intro ⟨hc1, hc2⟩), if_neg (not_not_intro ⟨hv1, hv2⟩)]

/-- Witness for C7 (amended) at channel 0 and value 0. -/
theorem disconnected_operations_fail_without_transport_witness :
    read_all_temperatures 1 none =
      (Except.error (PyErr.exception "Failed to read temperatures: 'NoneType' object has no attribute 'read_holding_registers'"), []) ∧
    read_single_temperature 1 0 none =
      (Except.error (PyErr.exception ("Failed to read temperature from channel " ++ toString (0 : ℤ) ++ ": 'NoneType' object has no attribute 'read_holding_registers'")), []) ∧
    read_temperature_corrections 1 none =
      (Except.error (PyErr.exception "Failed to read temperature corrections: 'NoneType' object has no attribute 'read_holding_registers'"), []) ∧
    set_temperature_correction 1 0 0 none =
      (Except.error (PyErr.exception ("Failed to set correction for channel " ++ toString (0 : ℤ) ++ ": 'NoneType' object has no attribute 'write_register'")), []) :=
  disconnected_operations_fail_without_transport 1 0 0 (by norm_num) (by norm_num)
    (by norm_num) (by norm_num)

/-- Witness for C8 at the encode boundaries. -/
theorem encode_truncates_toward_zero_witness :
    encode_temperature (327.6 : ℚ) = 3276 ∧ encode_temperature (-327.6 : ℚ) = 62260 :=
  ⟨(encode_truncates_toward_zero 0).2.2.2.1, (encode_truncates_toward_zero 0).2.2.2.2⟩
